import Mathlib

/-!
Shallow embedding of the go-torrentapi client (package torrentapi, final
option-configurable variant) for checking its natural-language specification.

Time is modelled as an integer instant (`Time`); `time.Now().After(e)` is
`e < now`.  HTTP transport and JSON decoding are modelled by an explicit
environment (`Env` / lists of `HttpOutcome`) supplying, in order, the outcome
of each external interaction, exactly the way the repository's own tests stub
`getRes` and `renewToken`.  A Go nil slice versus a non-nil empty slice is
modelled by `Option (List TorrentResult)`: `none` is the nil slice, `some []`
the empty non-nil one.
-/

namespace TorrentAPI

abbrev Time := Int

instance {ε α : Type} [DecidableEq ε] [DecidableEq α] : DecidableEq (Except ε α) := fun a b =>
  match a, b with
  | .ok x, .ok y =>
    if h : x = y then .isTrue (by rw [h]) else .isFalse (fun hc => h (Except.ok.inj hc))
  | .error x, .error y =>
    if h : x = y then .isTrue (by rw [h]) else .isFalse (fun hc => h (Except.error.inj hc))
  | .ok _, .error _ => .isFalse (fun hc => Except.noConfusion hc)
  | .error _, .ok _ => .isFalse (fun hc => Except.noConfusion hc)

/-- Opaque error values produced by the modelled external world (network
failures, JSON decode failures inside `getResults` / `renewToken`). -/
abbrev GoErr := String

/-- `Token` keeps token and its expiration date (struct `Token`). -/
structure Token where
  token : String
  expires : Time
deriving Repr, DecidableEq

/-- `IsValid`: the token string must be non-empty and `time.Now().After(t.Expires)`
must be false, i.e. the current instant must not lie strictly after the expiry. -/
def Token.isValid (t : Token) (now : Time) : Bool :=
  if t.token = "" then
    false
  else if t.expires < now then
    false
  else
    true

/-- The zero value `Token{}`: `renewToken` declares `var token Token` and
returns it unassigned on every failure path. -/
def zeroToken : Token := { token := "", expires := 0 }

/-- `EpisodeInfo` record from "episode_info" (struct `EpisodeInfo`). -/
structure EpisodeInfo where
  imdb : String
  tvdb : String
  tvrage : String
  themoviedb : String
  airdate : String
  seasonnum : String
  epnum : String
  title : String
deriving Repr, DecidableEq

/-- `TorrentResult`: one torrent entry (struct `TorrentResult`). -/
structure TorrentResult where
  title : String
  filename : String
  category : String
  download : String
  seeders : Int
  leechers : Int
  size : Nat
  pubdate : String
  ranked : Int
  infoPage : String
  episodeInfo : EpisodeInfo
deriving Repr, DecidableEq

/-- Model of the raw `torrent_results` JSON payload (`json.RawMessage`):
either it unmarshals into a `TorrentResults` value (`decodes`, where the
inner `none` is a nil slice, e.g. from the JSON literal `null`, and
`some rs` a non-nil slice, e.g. `[]` or a list of objects), or
`json.Unmarshal` fails on it (`malformed`). -/
inductive Payload where
  | decodes (rs : Option (List TorrentResult))
  | malformed
deriving Repr, DecidableEq

/-- `APIResponse`: the envelope, with `torrents = none` modelling a `nil`
`Torrents` field. -/
structure APIResponse where
  torrents : Option Payload
  error : String
  errorCode : Int
deriving Repr, DecidableEq

/-- Error codes returned by TorrentAPI (constants of the package). -/
def tokenExpiredCode : Int := 4

def noResultsCode : Int := 20

def imdbNotFound : Int := 10

/-- Default value for the MaxRetries option. -/
def DefaultMaxRetries : Int := 10

/-- Errors that `call` can hand to its caller. `expiredToken` is the
unexported `expiredTokenError`; `goError` wraps an error produced by the
modelled external world (transport or token decode failure). -/
inductive CallError where
  | expiredToken
  | decodeErr (query : String)
  | apiError (query : String) (errMsg : String) (code : Int)
  | unknownError (query : String)
  | goError (e : GoErr)
deriving Repr, DecidableEq

/-- `API`: the fields of struct `API` that the verified logic reads or
writes (`client`, `reqDelay`, `tokenExpiration`, `maxRetries` feed only the
transport model, which is parameterised explicitly). -/
structure API where
  Query : String
  APIToken : Token
  categories : List Int
  appID : String
  url : String
deriving Repr, DecidableEq

/-- `Category`: appends the category code to the list; the accumulated
query string is untouched. -/
def Category (a : API) (c : Int) : API :=
  { a with categories := a.categories ++ [c] }

/-- Chained `Category` invocations, oldest first. -/
def applyCategories (a : API) (cs : List Int) : API :=
  cs.foldl Category a

/-- `initQuery` cleans query state: `a.categories = a.categories[:0]`
(length zero) and `a.Query = ""`. -/
def initQuery (a : API) : API :=
  { a with categories := [], Query := "" }

/-- `strconv.Itoa` on a Go int. -/
def itoa (i : Int) : String := toString i

/-- The category-finalisation step of `call`: when the category list is
non-empty, `&category=` followed by the codes joined with `;` is appended
to the accumulated query string. -/
def finalizeCategories (a : API) : API :=
  if a.categories.length > 0 then
    { a with Query := a.Query ++ "&category=" ++ String.intercalate ";" (a.categories.map itoa) }
  else
    a

/-- `fmt.Sprintf("%s&token=%s%s&app_id=%s", a.url, a.APIToken.Token, a.Query, a.appID)`. -/
def assembleQuery (a : API) : String :=
  a.url ++ "&token=" ++ a.APIToken.token ++ a.Query ++ "&app_id=" ++ a.appID

/-- `processResponse`: decode the payload when present; otherwise dispatch
on the error code exactly as the `switch` does (4, then 10, then 20, then
default), and report an unknown error when neither payload nor error text
is present. -/
def processResponse (a : API) (r : APIResponse) : Except CallError (Option (List TorrentResult)) :=
  match r.torrents with
  | some (.decodes rs) => .ok rs
  | some .malformed => .error (.decodeErr a.Query)
  | none =>
    if r.error ≠ "" then
      if r.errorCode = tokenExpiredCode then
        .error .expiredToken
      else if r.errorCode = imdbNotFound then
        .ok none
      else if r.errorCode = noResultsCode then
        .ok none
      else
        .error (.apiError a.Query r.error r.errorCode)
    else
      .error (.unknownError a.Query)

/-- The environment feeding `call`: outcomes of successive `getResults`
invocations and of successive `renewToken` invocations, consumed in order
(the repository's tests stub exactly these two interaction points). -/
structure Env where
  getRes : List (Except GoErr APIResponse)
  renew : List (Except GoErr Token)
deriving Repr, DecidableEq

/-- Consume the next `getResults` outcome; an exhausted environment behaves
as a network failure (a modelling artifact never reached by the theorems,
which always supply enough outcomes). -/
def envGetRes (env : Env) : Except GoErr APIResponse × Env :=
  match env.getRes with
  | [] => (.error "environment exhausted", env)
  | o :: rest => (o, { env with getRes := rest })

/-- Consume the next `renewToken` outcome. -/
def envRenew (env : Env) : Except GoErr Token × Env :=
  match env.renew with
  | [] => (.error "environment exhausted", env)
  | o :: rest => (o, { env with renew := rest })

/-- Result of one `call` invocation: the returned pair, the final `API`
state, the remaining environment, and the request strings passed to
`getResults`, in order. -/
structure CallTrace where
  result : Except CallError (Option (List TorrentResult))
  api : API
  env : Env
  queries : List String
deriving Repr, DecidableEq

/-- The part of `call` after the token validity check: finalize categories,
assemble the request string, run `getResults`, interpret, and on the
distinguished expired-token error renew once and re-run `getResults` with
the same `query` string, returning the second interpretation directly. -/
def callAfterToken (a : API) (env : Env) : CallTrace :=
  let a1 := finalizeCategories a
  let query := assembleQuery a1
  match envGetRes env with
  | (.error e, env1) => ⟨.error (.goError e), a1, env1, [query]⟩
  | (.ok resp, env1) =>
    let pr := processResponse a1 resp
    if pr = .error .expiredToken then
      match envRenew env1 with
      | (.error e, env2) => ⟨.error (.goError e), { a1 with APIToken := zeroToken }, env2, [query]⟩
      | (.ok t, env2) =>
        let a2 := { a1 with APIToken := t }
        match envGetRes env2 with
        | (.error e, env3) => ⟨.error (.goError e), a2, env3, [query, query]⟩
        | (.ok resp2, env3) => ⟨processResponse a2 resp2, a2, env3, [query, query]⟩
    else
      ⟨pr, a1, env1, [query]⟩

/-- `call` before the deferred `initQuery`: when the stored token is not
valid, renew first (`a.APIToken, err = a.renewToken()` assigns the returned
zero token even when renewal fails, and a failure aborts the call). -/
def callBody (a : API) (now : Time) (env : Env) : CallTrace :=
  if a.APIToken.isValid now then
    callAfterToken a env
  else
    match envRenew env with
    | (.error e, env1) => ⟨.error (.goError e), { a with APIToken := zeroToken }, env1, []⟩
    | (.ok t, env1) => callAfterToken { a with APIToken := t } env1

/-- `call`, including the `defer a.initQuery()` that runs on every return
path. -/
def call (a : API) (now : Time) (env : Env) : CallTrace :=
  let t := callBody a now env
  { t with api := initQuery t.api }

/-- Does this envelope make `processResponse` raise the distinguished
expired-token signal? -/
def isExpiredResp (r : APIResponse) : Bool :=
  r.torrents = none && r.error ≠ "" && r.errorCode = tokenExpiredCode

/-! ### Transport (`makeRequest`) -/

/-- Outcome of one attempted HTTP GET: a network-level failure from
`a.client.Do`, or a response with a status code and body. -/
inductive HttpOutcome where
  | netErr (e : GoErr)
  | resp (status : Nat) (body : String)
deriving Repr, DecidableEq

/-- Errors of the transport layer. `noResponse` is the exhausted-environment
artifact. -/
inductive TransportError where
  | network (e : GoErr)
  | rateLimitExceeded
  | httpStatus (code : Nat)
  | noResponse
deriving Repr, DecidableEq

/-- Trace of one `makeRequest` invocation: its outcome, the number of HTTP
requests issued, and the number of `time.Sleep(a.reqDelay)` calls made. -/
structure ReqTrace where
  result : Except TransportError String
  attempts : Nat
  sleeps : Nat
deriving Repr, DecidableEq

/-- `makeRequest`: `maxAttempts := a.maxRetries`; each iteration first
decrements `maxAttempts`, issues the GET, returns the body on 200, fails
immediately on a network error or any status other than 200/429, and on 429
sleeps and retries while the decremented counter is still positive, failing
with "maximum number of attempts reached" otherwise. -/
def makeRequest (maxAttempts : Int) (rs : List HttpOutcome) : ReqTrace :=
  match rs with
  | [] => ⟨.error .noResponse, 0, 0⟩
  | r :: rest =>
    let m := maxAttempts - 1
    match r with
    | .netErr e => ⟨.error (.network e), 1, 0⟩
    | .resp status body =>
      if status = 200 then
        ⟨.ok body, 1, 0⟩
      else if status = 429 then
        if m > 0 then
          let t := makeRequest m rest
          ⟨t.result, t.attempts + 1, t.sleeps + 1⟩
        else
          ⟨.error .rateLimitExceeded, 1, 0⟩
      else
        ⟨.error (.httpStatus status), 1, 0⟩

/-! ### Concrete sample values used by witnesses and counterexamples -/

/-- A token that is valid at instant 0. -/
def sampleToken : Token := { token := "tkn", expires := 100 }

/-- The token handed out by a successful renewal in the sample scenarios. -/
def renewedToken : Token := { token := "tkn2", expires := 200 }

/-- An API value with a valid stored token and no categories. -/
def sampleAPI : API :=
  { Query := "&mode=list", APIToken := sampleToken, categories := [],
    appID := "app", url := "http://x?" }

/-- An API value with a valid stored token and three accumulated categories. -/
def catAPI : API :=
  { Query := "&mode=search", APIToken := sampleToken, categories := [14, 48, 17],
    appID := "app", url := "http://x?" }

/-- An API value whose stored token is invalid (empty credential). -/
def invalidAPI : API :=
  { Query := "&mode=list", APIToken := { token := "", expires := 100 }, categories := [],
    appID := "app", url := "http://x?" }

/-- Envelope carrying the expired-token error code 4. -/
def expiredEnvelope : APIResponse :=
  { torrents := none, error := "token expired", errorCode := 4 }

/-- Envelope whose payload is present and decodes to the empty (non-nil) list,
i.e. the JSON array literal. -/
def emptyListEnvelope : APIResponse :=
  { torrents := some (.decodes (some [])), error := "", errorCode := 0 }

/-! ### Helper lemmas -/

/-- `processResponse` yields the distinguished expired-token signal exactly on
an envelope with no payload, non-empty error text and error code 4. -/
theorem processResponse_expired_iff (a : API) (r : APIResponse) :
    processResponse a r = .error .expiredToken ↔ isExpiredResp r = true := by
  rcases r with ⟨ts, emsg, ec⟩
  cases ts with
  | none =>
    simp only [processResponse, isExpiredResp]
    split_ifs with h1 h2 <;> simp_all
  | some p =>
    cases p with
    | decodes rs => simp [processResponse, isExpiredResp]
    | malformed => simp [processResponse, isExpiredResp]

/-- On every path `callAfterToken` issues at least one and at most two
requests, all with the request string assembled before the first request. -/
theorem callAfterToken_queries_shape (a : API) (env : Env) :
    (callAfterToken a env).queries.head? = some (assembleQuery (finalizeCategories a)) ∧
    (callAfterToken a env).queries.length ≤ 2 := by
  rcases env with ⟨g, rn⟩
  cases g with
  | nil => simp [callAfterToken, envGetRes]
  | cons o g' =>
    cases o with
    | error e => simp [callAfterToken, envGetRes]
    | ok resp =>
      simp only [callAfterToken, envGetRes]
      split
      · cases rn with
        | nil => simp [envRenew]
        | cons o2 rn' =>
          cases o2 with
          | error e2 => simp [envRenew]
          | ok t =>
            simp only [envRenew]
            cases g' with
            | nil => simp
            | cons o3 g'' =>
              cases o3 with
              | error e3 => simp
              | ok r2 => simp
      · simp

/-- Chained `Category` calls append to the category list in call order and
leave the accumulated query string untouched. -/
theorem applyCategories_spec (a : API) (cs : List Int) :
    (applyCategories a cs).categories = a.categories ++ cs ∧
    (applyCategories a cs).Query = a.Query := by
  induction cs generalizing a with
  | nil => simp [applyCategories]
  | cons c cs ih =>
    have h := ih (Category a c)
    simp only [applyCategories, List.foldl_cons] at h ⊢
    rw [h.1, h.2]
    simp [Category]

/-- Consuming a prefix of `k` rate-limited responses, `k` below the attempt
budget, costs `k` extra attempts and `k` sleeps and leaves a budget of
`m - k` for the rest. -/
theorem makeRequest_429_run (k : Nat) (m : Int) (b : String) (rs : List HttpOutcome)
    (h : (k : Int) < m) :
    makeRequest m (List.replicate k (.resp 429 b) ++ rs) =
      { result := (makeRequest (m - k) rs).result,
        attempts := (makeRequest (m - k) rs).attempts + k,
        sleeps := (makeRequest (m - k) rs).sleeps + k } := by
  induction k generalizing m with
  | zero => simp
  | succ n ih =>
    have hcast : ((n + 1 : Nat) : Int) = (n : Int) + 1 := by push_cast; ring
    have hm : m - 1 > 0 := by rw [hcast] at h; omega
    have hn : (n : Int) < m - 1 := by rw [hcast] at h; omega
    have hmk : m - ((n + 1 : Nat) : Int) = (m - 1) - (n : Int) := by rw [hcast]; ring
    simp only [List.replicate_succ, List.cons_append, makeRequest, List.append_eq]
    rw [ih (m - 1) hn]
    simp [hm, hmk]
    have hmk2 : m - 1 - (n : Int) = m - ((n : Int) + 1) := by ring
    rw [hmk2]
    exact ⟨rfl, by omega, by omega⟩

/-! ### Claim theorems -/

/-- Claim C1: every invocation of `call` performs at most one expired-token
renew-and-retry: no execution issues more than two transport requests, and in
the scenario where the first interpretation yields error code 4, renewal
succeeds and the second interpretation also yields error code 4, `call`
returns an error after exactly two transport requests — the second
interpretation's outcome is final. -/
theorem call_retry_bounded (a : API) (now : Time) (env : Env) :
    (call a now env).queries.length ≤ 2 ∧
    (∀ r1 r2 t g rn,
      a.APIToken.isValid now = true →
      env.getRes = .ok r1 :: .ok r2 :: g →
      env.renew = .ok t :: rn →
      isExpiredResp r1 = true → isExpiredResp r2 = true →
      (call a now env).result = .error CallError.expiredToken ∧
        (call a now env).queries.length = 2) := by
  constructor
  · unfold call callBody
    split
    · simpa using (callAfterToken_queries_shape a env).2
    · rcases henv : envRenew env with ⟨o, env1⟩
      cases o with
      | error e => simp [henv]
      | ok t => simpa [henv] using (callAfterToken_queries_shape _ env1).2
  · intro r1 r2 t g rn hv hg hrn h1 h2
    rcases env with ⟨genv, rnenv⟩
    simp only at hg hrn
    subst hg hrn
    have he1 : processResponse (finalizeCategories a) r1 = .error .expiredToken :=
      (processResponse_expired_iff _ _).2 h1
    have he2 : processResponse { finalizeCategories a with APIToken := t } r2 = .error .expiredToken :=
      (processResponse_expired_iff _ _).2 h2
    simp [call, callBody, callAfterToken, envGetRes, envRenew, hv, he1, he2]

/-- Witness for C1: the double-expired-token scenario at a concrete input
returns the failing result after exactly two transport requests. -/
theorem call_retry_bounded_witness :
    (call sampleAPI 0 ⟨[.ok expiredEnvelope, .ok expiredEnvelope], [.ok renewedToken]⟩).result
      = .error CallError.expiredToken ∧
    (call sampleAPI 0 ⟨[.ok expiredEnvelope, .ok expiredEnvelope], [.ok renewedToken]⟩).queries.length
      = 2 :=
  (call_retry_bounded sampleAPI 0 ⟨[.ok expiredEnvelope, .ok expiredEnvelope], [.ok renewedToken]⟩).2
    expiredEnvelope expiredEnvelope renewedToken [] []
    (by decide) rfl rfl (by decide) (by decide)

/-- Claim C2 (corrected): `IsValid` uses `time.Now().After(t.Expires)`, which
is strict, so a token whose expiry equals the current instant is still
reported valid: validity is credential non-empty AND `now ≤ expires`, not
`now < expires` as claimed. -/
theorem isValid_iff (t : Token) (now : Time) :
    t.isValid now = true ↔ (t.token ≠ "" ∧ now ≤ t.expires) := by
  unfold Token.isValid
  split_ifs with h1 h2
  · simp [h1]
  · constructor
    · intro h
      simp at h
    · rintro ⟨-, hle⟩
      exact absurd hle (not_le.mpr h2)
  · constructor
    · intro _
      exact ⟨h1, le_of_not_lt h2⟩
    · intro _
      rfl

/-- Counterexample for C2 as stated: at the exact expiry instant (now = 5,
expires = 5) the claim demands `IsValid` be false (now is not strictly before
expiry), but the code returns true. -/
theorem isValid_boundary_counterexample :
    ¬ (((Token.mk "t" 5).isValid 5 = true) ↔ ("t" ≠ "" ∧ (5 : Time) < 5)) := by
  decide

/-- Claim C3 (corrected): when the stored token is valid at entry, `call`
returns the distinguished expired-token error only on the path where the
first interpretation yields the expired-token signal, renewal succeeds, and
the second interpretation yields it again — on that path the signal IS
surfaced to the caller, contrary to the claim; on every other path it is
absorbed. -/
theorem call_expired_only_on_double_expiry (a : API) (now : Time)
    (g : List (Except GoErr APIResponse)) (rn : List (Except GoErr Token))
    (hv : a.APIToken.isValid now = true)
    (hres : (call a now ⟨g, rn⟩).result = .error CallError.expiredToken) :
    ∃ r1 r2 t g' rn', g = .ok r1 :: .ok r2 :: g' ∧ rn = .ok t :: rn' ∧
      isExpiredResp r1 = true ∧ isExpiredResp r2 = true := by
  cases g with
  | nil => simp [call, callBody, callAfterToken, envGetRes, hv] at hres
  | cons o g1 =>
    cases o with
    | error e => simp [call, callBody, callAfterToken, envGetRes, hv] at hres
    | ok r1 =>
      by_cases h1 : processResponse (finalizeCategories a) r1 = .error .expiredToken
      · cases rn with
        | nil =>
          simp [call, callBody, callAfterToken, envGetRes, envRenew, hv, h1] at hres
        | cons o2 rn1 =>
          cases o2 with
          | error e2 =>
            simp [call, callBody, callAfterToken, envGetRes, envRenew, hv, h1] at hres
          | ok t =>
            cases g1 with
            | nil =>
              simp [call, callBody, callAfterToken, envGetRes, envRenew, hv, h1] at hres
            | cons o3 g2 =>
              cases o3 with
              | error e3 =>
                simp [call, callBody, callAfterToken, envGetRes, envRenew, hv, h1] at hres
              | ok r2 =>
                have h2 : processResponse { finalizeCategories a with APIToken := t } r2
                    = .error .expiredToken := by
                  simpa [call, callBody, callAfterToken, envGetRes, envRenew, hv, h1] using hres
                exact ⟨r1, r2, t, g2, rn1, rfl, rfl,
                  (processResponse_expired_iff _ _).1 h1, (processResponse_expired_iff _ _).1 h2⟩
      · simp [call, callBody, callAfterToken, envGetRes, hv, h1] at hres

/-- Counterexample for C3 as stated: a concrete execution in which the error
value `call` hands to the caller is exactly the distinguished expired-token
error, so it is not fully absorbed inside the call controller. -/
theorem expired_error_surfaces_counterexample :
    (call sampleAPI 0
        ⟨[.ok { torrents := none, error := "err", errorCode := 4 },
          .ok { torrents := none, error := "err", errorCode := 4 }],
         [.ok sampleToken]⟩).result = .error CallError.expiredToken := by
  decide

/-- Witness for C3 (amended): applying the theorem at the concrete
double-expired-token input. -/
theorem call_expired_only_on_double_expiry_witness :
    ∃ r1 r2 t g' rn',
      ([.ok expiredEnvelope, .ok expiredEnvelope] : List (Except GoErr APIResponse))
        = .ok r1 :: .ok r2 :: g' ∧
      ([.ok renewedToken] : List (Except GoErr Token)) = .ok t :: rn' ∧
      isExpiredResp r1 = true ∧ isExpiredResp r2 = true :=
  call_expired_only_on_double_expiry sampleAPI 0
    [.ok expiredEnvelope, .ok expiredEnvelope] [.ok renewedToken]
    (by decide) (by decide)

/-- Claim C4: on the expired-token retry path the second transport request is
issued with exactly the request string assembled before the first request
(base URL, original token, accumulated query with categories, app id). -/
theorem call_retry_same_query (a : API) (now : Time)
    (r1 : APIResponse) (o2 : Except GoErr APIResponse)
    (g : List (Except GoErr APIResponse)) (t : Token) (rn : List (Except GoErr Token))
    (hv : a.APIToken.isValid now = true)
    (h1 : isExpiredResp r1 = true) :
    (call a now ⟨.ok r1 :: o2 :: g, .ok t :: rn⟩).queries =
      [assembleQuery (finalizeCategories a), assembleQuery (finalizeCategories a)] := by
  have he1 := (processResponse_expired_iff (finalizeCategories a) r1).2 h1
  cases o2 with
  | error e => simp [call, callBody, callAfterToken, envGetRes, envRenew, hv, he1]
  | ok r2 => simp [call, callBody, callAfterToken, envGetRes, envRenew, hv, he1]

/-- Witness for C4: concrete retry execution issuing the identical string twice. -/
theorem call_retry_same_query_witness :
    (call catAPI 0 ⟨[.ok expiredEnvelope, .ok emptyListEnvelope], [.ok renewedToken]⟩).queries =
      [assembleQuery (finalizeCategories catAPI), assembleQuery (finalizeCategories catAPI)] :=
  call_retry_same_query catAPI 0 expiredEnvelope (.ok emptyListEnvelope) [] renewedToken []
    (by decide) (by decide)

/-- Claim C5: on every starting state and every outcome, the deferred
`initQuery` leaves the accumulated query string empty and the category list
of length zero immediately after `call` returns. -/
theorem call_resets_query_state (a : API) (now : Time) (env : Env) :
    (call a now env).api.Query = "" ∧ (call a now env).api.categories.length = 0 := by
  simp [call, initQuery]

/-- Claim C6 (corrected): for an envelope with no payload and non-empty error
text, codes 10 and 20 are successful empty searches (nil result, no error);
but code 4 is dispatched before the default case, so only the codes other
than 4, 10 and 20 yield an error carrying the message and code — code 4
yields the expired-token signal instead. -/
theorem processResponse_error_dispatch (a : API) (r : APIResponse)
    (ht : r.torrents = none) (he : r.error ≠ "") :
    ((r.errorCode = imdbNotFound ∨ r.errorCode = noResultsCode) →
      processResponse a r = .ok none) ∧
    (r.errorCode = tokenExpiredCode → processResponse a r = .error .expiredToken) ∧
    (r.errorCode ≠ tokenExpiredCode → r.errorCode ≠ imdbNotFound → r.errorCode ≠ noResultsCode →
      processResponse a r = .error (.apiError a.Query r.error r.errorCode)) := by
  rcases r with ⟨ts, emsg, ec⟩
  simp only at ht he ⊢
  subst ht
  refine ⟨?_, ?_, ?_⟩
  · rintro (h | h) <;> subst h <;>
      simp [processResponse, he, tokenExpiredCode, imdbNotFound, noResultsCode]
  · intro h
    subst h
    simp [processResponse, he, tokenExpiredCode]
  · intro h4 h10 h20
    simp only [tokenExpiredCode] at h4
    simp only [imdbNotFound] at h10
    simp only [noResultsCode] at h20
    simp [processResponse, tokenExpiredCode, imdbNotFound, noResultsCode, he, h4, h10, h20]

/-- Counterexample for C6 as stated: error code 4 with non-empty error text
does not yield an error carrying the message and code — it yields the
distinguished expired-token signal. -/
theorem api_error_code4_counterexample :
    processResponse sampleAPI { torrents := none, error := "err", errorCode := 4 }
      = .error CallError.expiredToken ∧
    processResponse sampleAPI { torrents := none, error := "err", errorCode := 4 }
      ≠ .error (.apiError sampleAPI.Query "err" 4) := by
  decide

/-- Witness for C6 (amended): a concrete code-20 envelope interprets to a nil
result with no error, and a concrete code-5 envelope to an error carrying the
message and code. -/
theorem processResponse_error_dispatch_witness :
    processResponse sampleAPI { torrents := none, error := "no results", errorCode := 20 }
      = .ok none ∧
    processResponse sampleAPI { torrents := none, error := "boom", errorCode := 5 }
      = .error (.apiError sampleAPI.Query "boom" 5) :=
  ⟨(processResponse_error_dispatch sampleAPI
      { torrents := none, error := "no results", errorCode := 20 } rfl (by decide)).1
      (Or.inr rfl),
   (processResponse_error_dispatch sampleAPI
      { torrents := none, error := "boom", errorCode := 5 } rfl (by decide)).2.2
      (by decide) (by decide) (by decide)⟩

/-- Claim C7: `makeRequest` returns the body of the first 200 response after
any run of 429s within the attempt budget; fails immediately with the status
on any non-200, non-429 response; and when every response is 429 it sleeps
between attempts and fails with the rate-limit error once the configured
maximum attempt count (default 10) is exhausted. -/
theorem makeRequest_policy (m : Int) (k n : Nat) (b b429 : String) (s : Nat)
    (rs : List HttpOutcome) :
    ((k : Int) < m →
      makeRequest m (List.replicate k (.resp 429 b429) ++ .resp 200 b :: rs) =
        { result := .ok b, attempts := k + 1, sleeps := k }) ∧
    (s ≠ 200 → s ≠ 429 →
      makeRequest m (.resp s b :: rs) =
        { result := .error (.httpStatus s), attempts := 1, sleeps := 0 }) ∧
    (1 ≤ n →
      makeRequest (n : Int) (List.replicate n (.resp 429 b429) ++ rs) =
        { result := .error .rateLimitExceeded, attempts := n, sleeps := n - 1 }) ∧
    DefaultMaxRetries = 10 := by
  refine ⟨?_, ?_, ?_, rfl⟩
  · intro h
    rw [makeRequest_429_run k m b429 _ h]
    simp [makeRequest]
    omega
  · intro h200 h429
    simp [makeRequest, h200, h429]
  · intro hn
    obtain ⟨j, rfl⟩ : ∃ j, n = j + 1 := ⟨n - 1, by omega⟩
    have hrep : List.replicate (j + 1) (HttpOutcome.resp 429 b429) ++ rs =
        List.replicate j (HttpOutcome.resp 429 b429) ++ (HttpOutcome.resp 429 b429 :: rs) := by
      rw [List.replicate_succ']
      simp
    have hlt : (j : Int) < ((j + 1 : Nat) : Int) := by push_cast; omega
    rw [hrep, makeRequest_429_run j ((j + 1 : Nat) : Int) b429 _ hlt]
    have h1 : ((j + 1 : Nat) : Int) - (j : Nat) = 1 := by push_cast; ring
    rw [h1]
    simp [makeRequest]
    omega

/-- Witness for C7: a 429-429-200 run with budget 10 succeeds with the third
body after two sleeps; a 500 fails immediately; three 429s with budget 3
exhaust the attempts. -/
theorem makeRequest_policy_witness :
    makeRequest 10 (List.replicate 2 (.resp 429 "slow") ++ .resp 200 "payload" :: []) =
      { result := .ok "payload", attempts := 3, sleeps := 2 } ∧
    makeRequest 10 (.resp 500 "boom" :: []) =
      { result := .error (.httpStatus 500), attempts := 1, sleeps := 0 } ∧
    makeRequest ((3 : Nat) : Int) (List.replicate 3 (.resp 429 "slow") ++ []) =
      { result := .error .rateLimitExceeded, attempts := 3, sleeps := 2 } :=
  ⟨(makeRequest_policy 10 2 3 "payload" "slow" 500 []).1 (by decide),
   (makeRequest_policy 10 2 3 "boom" "slow" 500 []).2.1 (by decide) (by decide),
   (makeRequest_policy 10 2 3 "payload" "slow" 500 []).2.2.1 (by decide)⟩

/-- Claim C8: `Category` invocations accumulate into the category list in
call order leaving the query string unchanged, and at call time a non-empty
list is joined with ";" in call order and appended as a single
"&category=" parameter in the assembled request string. -/
theorem category_list_and_submission (a : API) (cs : List Int) (now : Time) (env : Env) :
    ((applyCategories a cs).categories = a.categories ++ cs ∧
      (applyCategories a cs).Query = a.Query) ∧
    (a.APIToken.isValid now = true → a.categories ≠ [] →
      (call a now env).queries.head? =
        some (a.url ++ "&token=" ++ a.APIToken.token ++ a.Query ++ "&category=" ++
          String.intercalate ";" (a.categories.map itoa) ++ "&app_id=" ++ a.appID)) := by
  constructor
  · exact applyCategories_spec a cs
  · intro hv hcs
    have hpos : 0 < a.categories.length := List.length_pos.mpr hcs
    have hq := (callAfterToken_queries_shape a env).1
    have hs : assembleQuery (finalizeCategories a) =
        a.url ++ "&token=" ++ a.APIToken.token ++ a.Query ++ "&category=" ++
          String.intercalate ";" (a.categories.map itoa) ++ "&app_id=" ++ a.appID := by
      simp [assembleQuery, finalizeCategories, hpos, String.append_assoc]
    simp only [call, callBody, hv, if_true]
    rw [hq, hs]

/-- Witness for C8: three accumulated categories are joined with ";" in call
order inside the concrete issued request string. -/
theorem category_list_and_submission_witness :
    ((applyCategories catAPI [44]).categories = catAPI.categories ++ [44] ∧
      (applyCategories catAPI [44]).Query = catAPI.Query) ∧
    (call catAPI 0 ⟨[.ok emptyListEnvelope], []⟩).queries.head? =
      some (catAPI.url ++ "&token=" ++ catAPI.APIToken.token ++ catAPI.Query ++ "&category=" ++
        String.intercalate ";" (catAPI.categories.map itoa) ++ "&app_id=" ++ catAPI.appID) :=
  ⟨(category_list_and_submission catAPI [44] 0 ⟨[.ok emptyListEnvelope], []⟩).1,
   (category_list_and_submission catAPI [44] 0 ⟨[.ok emptyListEnvelope], []⟩).2
     (by decide) (by decide)⟩

/-- Claim C9: whenever `call` invokes token renewal — at entry because the
stored token is invalid, or on the expired-token retry path — and the
renewal fails, `call` returns the renewal error and the stored token field
has already been overwritten with the zero-value token. -/
theorem renew_failure_clobbers_token (a : API) (now : Time) :
    (∀ e g rn, a.APIToken.isValid now = false →
      (call a now ⟨g, .error e :: rn⟩).result = .error (.goError e) ∧
      (call a now ⟨g, .error e :: rn⟩).api.APIToken = zeroToken) ∧
    (∀ e r1 g rn, a.APIToken.isValid now = true → isExpiredResp r1 = true →
      (call a now ⟨.ok r1 :: g, .error e :: rn⟩).result = .error (.goError e) ∧
      (call a now ⟨.ok r1 :: g, .error e :: rn⟩).api.APIToken = zeroToken) := by
  constructor
  · intro e g rn hv
    simp [call, callBody, envRenew, hv, initQuery]
  · intro e r1 g rn hv h1
    have he1 := (processResponse_expired_iff (finalizeCategories a) r1).2 h1
    simp [call, callBody, callAfterToken, envGetRes, envRenew, hv, he1, initQuery]

/-- Witness for C9: renewal failure at entry and on the retry path, at
concrete inputs, both return the renewal error with the token zeroed. -/
theorem renew_failure_clobbers_token_witness :
    ((call invalidAPI 0 ⟨[], [.error "net down"]⟩).result = .error (.goError "net down") ∧
      (call invalidAPI 0 ⟨[], [.error "net down"]⟩).api.APIToken = zeroToken) ∧
    ((call sampleAPI 0 ⟨[.ok expiredEnvelope], [.error "net down"]⟩).result
        = .error (.goError "net down") ∧
      (call sampleAPI 0 ⟨[.ok expiredEnvelope], [.error "net down"]⟩).api.APIToken = zeroToken) :=
  ⟨(renew_failure_clobbers_token invalidAPI 0).1 "net down" [] [] (by decide),
   (renew_failure_clobbers_token sampleAPI 0).2 "net down" expiredEnvelope [] []
     (by decide) (by decide)⟩

/-- Claim C10: the two kinds of successful empty results are distinguishable:
a payload decoding to zero torrents gives an empty non-nil result (`some []`),
while benign error codes 10 and 20 give a nil result (`none`), in all cases
with no error. -/
theorem empty_results_distinguished (a : API) (now : Time)
    (g : List (Except GoErr APIResponse)) (rn : List (Except GoErr Token))
    (msg : String) (hv : a.APIToken.isValid now = true) (hmsg : msg ≠ "") :
    (call a now
        ⟨.ok { torrents := some (.decodes (some [])), error := "", errorCode := 0 } :: g, rn⟩).result
      = .ok (some []) ∧
    (call a now ⟨.ok { torrents := none, error := msg, errorCode := imdbNotFound } :: g, rn⟩).result
      = .ok none ∧
    (call a now ⟨.ok { torrents := none, error := msg, errorCode := noResultsCode } :: g, rn⟩).result
      = .ok none ∧
    (some ([] : List TorrentResult)) ≠ (none : Option (List TorrentResult)) := by
  refine ⟨?_, ?_, ?_, by simp⟩ <;>
    simp [call, callBody, callAfterToken, envGetRes, processResponse, hv, hmsg,
      tokenExpiredCode, imdbNotFound, noResultsCode]

/-- Witness for C10: concrete empty-array and code-20 executions produce the
empty non-nil and the nil result respectively. -/
theorem empty_results_distinguished_witness :
    (call sampleAPI 0
        ⟨[.ok { torrents := some (.decodes (some [])), error := "", errorCode := 0 }], []⟩).result
      = .ok (some []) ∧
    (call sampleAPI 0
        ⟨[.ok { torrents := none, error := "no results", errorCode := imdbNotFound }], []⟩).result
      = .ok none ∧
    (call sampleAPI 0
        ⟨[.ok { torrents := none, error := "no results", errorCode := noResultsCode }], []⟩).result
      = .ok none ∧
    (some ([] : List TorrentResult)) ≠ (none : Option (List TorrentResult)) :=
  empty_results_distinguished sampleAPI 0 [] [] "no results" (by decide) (by decide)

end TorrentAPI
